import Mathlib

/-!
# Verification of the WhatsApp gateway message-relay layer

Shallow embedding of `src/fastapi/app/main.py` and `src/fastapi/app/main.old.py`.
The gateway is a FastAPI proxy over two backends:

* a Redis list at `QUEUE_KEY` used as the legacy message queue
  (`/messages/status`, `/messages/peek`, `/messages/pop`), and
* the Baileys connector, an HTTP service the gateway forwards to for
  connection-bound operations (`/status`, `/qrcode`, `/send/*`), stream reads
  and webhook management.

Redis list commands are modelled as pure functions over `QueueState`
(`List String`, raw JSON serializations of envelopes).  Following the
source's own documentation (peek shows "newest first", pop removes
"oldest first — FIFO"), index 0 of the list is the Redis head where the
producer LPUSHes freshly ingested envelopes, so the head is the most
recent entry and the tail the oldest.  Decoded messages are represented
by their raw serializations: `json.loads` is injective on the valid JSON
the producer writes, so counts, ordering, identity and disjointness are
unaffected by this representation.

Connector calls are modelled by a `ConnectorOutcome` describing what the
HTTP exchange did (successful JSON body, HTTP error status after
`raise_for_status`, or transport failure), and handlers return
`Except HandlerFailure α`, where `HandlerFailure.httpException` is a
deliberately raised FastAPI `HTTPException` and `HandlerFailure.unhandled`
is an exception that escaped the handler uncaught.
-/

namespace WhatsAppGateway

/-- A raw entry of the Redis list: the JSON serialization of one envelope. -/
abbrev Entry := String

/-- The state of the Redis list at `QUEUE_KEY`.  Index 0 is the Redis head
(most recently LPUSHed = most recent envelope); the last element is the
oldest. -/
abbrev QueueState := List Entry

/-- Python truthiness of a Redis string reply: non-empty. -/
def truthy (e : Entry) : Bool := e ≠ ""

/-- Redis `LLEN`: length of the list. -/
def llen (s : QueueState) : Nat := s.length

/-- Redis `LRANGE key start stop` (both indices inclusive, negative indices
count from the end, out-of-range indices are clamped, inverted ranges give
`[]`). -/
def lrange (s : QueueState) (start stop : Int) : List Entry :=
  let len : Int := s.length
  let start' : Int := if start < 0 then max 0 (len + start) else start
  let stop' : Int := if stop < 0 then len + stop else stop
  if start' > stop' ∨ start' ≥ len then []
  else
    let stop'' : Int := min stop' (len - 1)
    (s.drop start'.toNat).take (stop''.toNat - start'.toNat + 1)

/-- Redis `RPOP`: remove and return the tail (oldest) element, `none` when
the list is empty. -/
def rpop (s : QueueState) : Option Entry × QueueState :=
  match s.getLast? with
  | none => (none, s)
  | some e => (some e, s.dropLast)

/-- The pipeline in `pop`: `count` consecutive `RPOP`s, collecting each
reply (`none` once the list is exhausted). -/
def rpopN : Nat → QueueState → List (Option Entry) × QueueState
  | 0, s => ([], s)
  | n + 1, s =>
    let (r, s') := rpop s
    let (rs, s'') := rpopN n s'
    (r :: rs, s'')

/-- Modelled from the spec: the ingestion side (the connector process, not
under `src/`) appends each newly normalized envelope to the Redis list with
`LPUSH`, which is what makes the head of the list the most recent envelope —
matching the source docstrings ("newest first" for peek, "oldest first —
FIFO" for pop). -/
def lpush (e : Entry) (s : QueueState) : QueueState := e :: s

/-- The queue state reached from the empty store by appending the envelopes
of `es` in order (`es.head` is the oldest, appended first). -/
def buildQueue (es : List Entry) : QueueState :=
  es.foldl (fun s e => lpush e s) []

/-! ## Message endpoints over the Redis queue (`main.py`)

FastAPI `Query` bounds (`ge`/`le`) are checked by the framework before the
handler body runs; they are modelled as a guard evaluated before any store
access, yielding `ValidationError.invalidParam` (FastAPI's 422).  Handlers
return the response paired with the store state after the call. -/

/-- A query parameter rejected by FastAPI validation (HTTP 422). -/
inductive ValidationError where
  | invalidParam
deriving Repr, DecidableEq

/-- Body of `/messages/peek` and `/messages/pop` responses.  Decoded
messages are represented by their raw serializations (`json.loads` is
injective on the producer's valid JSON). -/
structure MsgsResponse where
  messages : List Entry
  count : Nat
deriving Repr, DecidableEq

/-- Body of `/messages/status` (`queue_status` in `main.py`). -/
structure QueueStatusResponse where
  queue_length : Nat
  queue_key : String
deriving Repr, DecidableEq

/-- `GET /messages/status`: `llen(QUEUE_KEY)`, no mutation. -/
def queue_status (s : QueueState) : QueueStatusResponse × QueueState :=
  ({ queue_length := llen s, queue_key := "whatsapp:messages:incoming" }, s)

/-- `GET /messages/peek?start=..&end=..` — the source's `end` parameter is
called `stop` here (`end` is a Lean keyword).  Validation: `end` has
`Query(9, le=99)`, `start` is unconstrained.  Body: `lrange`, then keep the
truthy items. -/
def peek (start stop : Int) (s : QueueState) :
    Except ValidationError MsgsResponse × QueueState :=
  if stop > 99 then (.error .invalidParam, s)
  else
    let items := lrange s start stop
    let msgs := items.filter truthy
    (.ok { messages := msgs, count := msgs.length }, s)

/-- `POST /messages/pop?count=..`.  Validation: `Query(10, ge=1, le=100)`.
Body: a pipeline of `count` `RPOP`s, then keep the truthy replies. -/
def pop (count : Int) (s : QueueState) :
    Except ValidationError MsgsResponse × QueueState :=
  if count < 1 ∨ count > 100 then (.error .invalidParam, s)
  else
    let results := (rpopN count.toNat s).1
    let msgs := (results.filterMap id).filter truthy
    (.ok { messages := msgs, count := msgs.length }, (rpopN count.toNat s).2)

/-! ## Connector (Baileys) calls

`baileys_get`/`baileys_post` perform an HTTP request and
`raise_for_status()`: an HTTP error status raises `httpx.HTTPStatusError`,
a transport problem raises some other exception.  `ConnectorOutcome`
describes the exchange; handlers return `Except HandlerFailure α` where
`httpException` is a deliberately raised FastAPI `HTTPException` and
`unhandled` is an exception escaping the handler uncaught (FastAPI then
produces a generic 500, not a 503). -/

/-- What one HTTP exchange with the connector did. -/
inductive ConnectorOutcome (α : Type) where
  | ok (body : α)
  | httpError (code : Nat) (msg : String)
  | unreachable (msg : String)
deriving Repr, DecidableEq

/-- The exception raised inside `baileys_get`/`baileys_post`. -/
inductive BaileysError where
  | httpStatusError (code : Nat) (msg : String)
  | transportError (msg : String)
deriving Repr, DecidableEq

/-- Python `str(e)` for a connector exception. -/
def BaileysError.str : BaileysError → String
  | .httpStatusError _ m => m
  | .transportError m => m

/-- Shared body of `baileys_get`/`baileys_post`: request plus
`raise_for_status()`. -/
def httpRequest {α : Type} : ConnectorOutcome α → Except BaileysError α
  | .ok b => .ok b
  | .httpError c m => .error (.httpStatusError c m)
  | .unreachable m => .error (.transportError m)

/-- `baileys_get` from the source. -/
def baileys_get {α : Type} (o : ConnectorOutcome α) : Except BaileysError α :=
  httpRequest o

/-- `baileys_post` from the source. -/
def baileys_post {α : Type} (o : ConnectorOutcome α) : Except BaileysError α :=
  httpRequest o

/-- How a handler call ends when it does not return normally. -/
inductive HandlerFailure where
  | httpException (code : Nat) (detail : String)
  | unhandled (err : BaileysError)
deriving Repr, DecidableEq

/-- `GET /status`: forward to the connector; any failure is re-raised as
`HTTPException(503, "Baileys unavailable: ...")`. -/
def status {α : Type} (o : ConnectorOutcome α) : Except HandlerFailure α :=
  match baileys_get o with
  | .ok r => .ok r
  | .error e => .error (.httpException 503 ("Baileys unavailable: " ++ e.str))

/-- Whether a handler outcome is the service-unavailable condition
(a deliberate HTTP 503). -/
def isServiceUnavailable {α : Type} : Except HandlerFailure α → Bool
  | .error (.httpException 503 _) => true
  | _ => false

/-- `POST /send/text`: `return await baileys_post(...)` with no
try/except — a connector failure escapes the handler uncaught.  Request
schema validation of the body `b` is out of scope (spec §1). -/
def send_text {α β : Type} (b : α) (o : ConnectorOutcome β) :
    Except HandlerFailure β :=
  match b with
  | _ => (baileys_post o).mapError .unhandled

/-- `POST /send/image`: same shape as `send_text`. -/
def send_image {α β : Type} (b : α) (o : ConnectorOutcome β) :
    Except HandlerFailure β :=
  match b with
  | _ => (baileys_post o).mapError .unhandled

/-- `POST /send/buttons`: same shape as `send_text`. -/
def send_buttons {α β : Type} (b : α) (o : ConnectorOutcome β) :
    Except HandlerFailure β :=
  match b with
  | _ => (baileys_post o).mapError .unhandled

/-- `POST /send/list`: same shape as `send_text`. -/
def send_list {α β : Type} (b : α) (o : ConnectorOutcome β) :
    Except HandlerFailure β :=
  match b with
  | _ => (baileys_post o).mapError .unhandled

/-- `POST /send/template`: same shape as `send_text`. -/
def send_template {α β : Type} (b : α) (o : ConnectorOutcome β) :
    Except HandlerFailure β :=
  match b with
  | _ => (baileys_post o).mapError .unhandled

/-- `POST /send/reaction`: same shape as `send_text`. -/
def send_reaction {α β : Type} (b : α) (o : ConnectorOutcome β) :
    Except HandlerFailure β :=
  match b with
  | _ => (baileys_post o).mapError .unhandled

/-- The JSON body the connector's `/qrcode` endpoint returns. -/
structure QrPayload where
  qr : Option String
  status : Option String
deriving Repr, DecidableEq

/-- Body of `GET /qrcode`. -/
structure QrcodeResponse where
  qr : Option String
  qr_image_base64 : Option String
  status : Option String
deriving Repr, DecidableEq

/-- Python truthiness of `r.get("qr")`: present and non-empty. -/
def optTruthy : Option String → Bool
  | some q => q ≠ ""
  | none => false

/-- `GET /qrcode`.  `render` stands for `qrcode.make` + PNG encoding +
base64 (QR-code image rendering is out of scope, spec §1).  A connector
`HTTPStatusError` is re-raised with the connector's own status code; any
other failure becomes a 503. -/
def get_qrcode (render : String → String) (o : ConnectorOutcome QrPayload) :
    Except HandlerFailure QrcodeResponse :=
  match baileys_get o with
  | .ok r =>
    let img_b64 : Option String :=
      match r.qr with
      | some q => if q = "" then none else some (render q)
      | none => none
    .ok { qr := r.qr, qr_image_base64 := img_b64, status := r.status }
  | .error (.httpStatusError c _) =>
      .error (.httpException c "QR not available - check /status")
  | .error (.transportError m) => .error (.httpException 503 m)

/-! ## Health (`/health`, identical in both modules) -/

/-- Body of `GET /health`. -/
structure HealthResponse where
  status : String
  redis : String
  baileys : String
deriving Repr, DecidableEq

/-- Did a probe wrapped in try/except succeed? -/
def probeOk {ε α : Type} : Except ε α → Bool
  | .ok _ => true
  | .error _ => false

/-- `GET /health`: probe Redis (`ping`) and the connector
(`baileys_get("/status")`), each in its own try/except; aggregate. -/
def health (redisPing : Except String Unit) (statusOutcome : ConnectorOutcome Unit) :
    HealthResponse :=
  let redis_ok := probeOk redisPing
  let baileys_ok := probeOk (baileys_get statusOutcome)
  { status := if redis_ok && baileys_ok then "healthy" else "degraded"
    redis := if redis_ok then "ok" else "error"
    baileys := if baileys_ok then "ok" else "error" }

/-! ## Stream endpoints (`main.old.py`)

These forward to the connector, which owns the stream; the handler's own
work is parameter validation and building the request path.  A handler
modelled as `Except ValidationError String` returns the request path it
issues, or a validation error raised before any request — so rejection
provably touches neither the store nor the connector. -/

/-- `GET /messages/stream/read`: `count` has `Query(10, ge=1, le=100)`,
`lastId` defaults to `"0"`. -/
def stream_read (count : Int) (lastId : String) : Except ValidationError String :=
  if count < 1 ∨ count > 100 then .error .invalidParam
  else .ok ("/messages/stream/read?count=" ++ toString count ++ "&lastId=" ++ lastId)

/-- `GET /messages/trace/{jid}`: `limit` has `Query(100, ge=1, le=500)`. -/
def trace_conversation (jid : String) (limit : Int) : Except ValidationError String :=
  if limit < 1 ∨ limit > 500 then .error .invalidParam
  else .ok ("/messages/trace/" ++ jid ++ "?limit=" ++ toString limit)

/-- The part of the connector's `/messages/stream/info` body the legacy
endpoint uses. -/
structure StreamInfo where
  length : Option Nat
deriving Repr, DecidableEq

/-- Body of the legacy `GET /messages/status` in `main.old.py`. -/
structure LegacyStatusResponse where
  queue_length : Nat
deriving Repr, DecidableEq

/-- Legacy `GET /messages/status` (`queue_status_legacy`): fetch stream
info from the connector and report `info.get("length", 0)`; no try/except,
so a connector failure escapes uncaught. -/
def queue_status_legacy (o : ConnectorOutcome StreamInfo) :
    Except HandlerFailure LegacyStatusResponse :=
  match baileys_get o with
  | .ok info => .ok { queue_length := info.length.getD 0 }
  | .error e => .error (.unhandled e)

/-! ## Webhook dispatcher (modelled from the spec)

The dispatcher lives in the connector process, not under `src/`
(`main.old.py` only forwards webhook registration to it). -/

/-- Terminal delivery state of one event for one subscriber. -/
inductive DeliveryState where
  | acked
  | exhausted
deriving Repr, DecidableEq

/-- Record of one dispatch of one event to one subscriber: number of
attempts made, the backoff intervals waited between consecutive attempts,
number of successful deliveries recorded, and the terminal state. -/
structure DispatchLog where
  attemptsMade : Nat
  intervals : List Nat
  successes : Nat
  final : DeliveryState
deriving Repr, DecidableEq

/-- Modelled from the spec: exponential backoff — the wait after failed
attempt `k` (0-based) is `base * 2 ^ k`, starting at the fixed base
interval. -/
def backoff (base k : Nat) : Nat := base * 2 ^ k

/-- Modelled from the spec: the retry loop of the webhook dispatcher
(missing from `src/`; it lives in the connector process).  `endpoint i`
tells whether the subscriber's endpoint accepts the `i`-th attempt
(0-based); `budget` attempts remain.  The dispatcher stops at the first
success (recording exactly one delivery), otherwise waits `backoff base i`
and retries until the attempt budget is exhausted, after which the event
is marked `Exhausted` for this subscriber. -/
def dispatchFrom (endpoint : Nat → Bool) (base : Nat) :
    Nat → Nat → DispatchLog
  | 0, _ => ⟨0, [], 0, .exhausted⟩
  | budget + 1, i =>
    if endpoint i then ⟨1, [], 1, .acked⟩
    else
      let rest := dispatchFrom endpoint base budget (i + 1)
      ⟨rest.attemptsMade + 1,
       if rest.attemptsMade = 0 then [] else backoff base i :: rest.intervals,
       rest.successes, rest.final⟩

/-- Modelled from the spec: dispatching one event to one subscriber with a
capped attempt count `maxAttempts`.  The Durable Store is not touched by
the dispatcher (independent lifecycles, spec §4.3): the store state is
returned unchanged alongside the log. -/
def dispatch (endpoint : Nat → Bool) (maxAttempts base : Nat)
    (store : QueueState) : DispatchLog × QueueState :=
  (dispatchFrom endpoint base maxAttempts 0, store)

/-! ## Helper lemmas -/

theorem buildQueue_aux (es : List Entry) :
    ∀ acc : QueueState, es.foldl (fun s e => lpush e s) acc = es.reverse ++ acc := by
  induction es with
  | nil => intro acc; simp
  | cons e es ih =>
    intro acc
    simp only [List.foldl_cons, List.reverse_cons, ih, lpush]
    simp

/-- Appending envelopes in order yields the reverse (newest-first) list. -/
theorem buildQueue_eq_reverse (es : List Entry) : buildQueue es = es.reverse := by
  simpa using buildQueue_aux es []

/-- Closed form of the `RPOP` pipeline: the replies are the last `m`
elements of the list (oldest first), padded with `none` once the list is
exhausted, and the new state is the list minus its last `m` elements. -/
theorem rpopN_eq (m : Nat) (s : QueueState) :
    rpopN m s =
      ((s.reverse.take m).map some ++ List.replicate (m - s.length) none,
       (s.reverse.drop m).reverse) := by
  induction m generalizing s with
  | zero => simp [rpopN]
  | succ n ih =>
    rcases hs : s.reverse with _ | ⟨a, t⟩
    · have hnil : s = [] := by
        have h := congrArg List.reverse hs
        simpa using h
      subst hnil
      simp [rpopN, rpop, ih, List.replicate_succ]
    · have hs' : s = t.reverse ++ [a] := by
        have h := congrArg List.reverse hs
        simpa using h
      subst hs'
      have h1 : (t.reverse ++ [a]).getLast? = some a := List.getLast?_concat _
      have h2 : (t.reverse ++ [a]).dropLast = t.reverse := List.dropLast_concat ..
      rw [rpopN, rpop, h1]
      simp only [h2, ih]
      simp [hs, List.length_append, Nat.succ_sub_succ]

/-- Decoding the pipeline replies: the `some` replies survive `filterMap`
and the trailing `none` padding is dropped. -/
theorem filterMap_pipeline (l : List Entry) (k : Nat) :
    ((l.map some ++ List.replicate k (none : Option Entry)).filterMap id) = l := by
  rw [List.filterMap_append]
  have h1 : (l.map some).filterMap id = l := by
    rw [List.filterMap_map]
    simp
  have h2 : (List.replicate k (none : Option Entry)).filterMap id = [] := by simp
  rw [h1, h2, List.append_nil]

/-- `pop` on a store built from append history `es`, with an accepted
`count`: it returns the `count` oldest envelopes in append order and leaves
the store holding exactly the later-appended remainder. -/
theorem pop_spec (es : List Entry) (n : Int) (h1 : 1 ≤ n) (h2 : n ≤ 100)
    (htr : ∀ e ∈ es, truthy e) :
    pop n (buildQueue es) =
      (.ok { messages := es.take n.toNat, count := (es.take n.toNat).length },
       buildQueue (es.drop n.toNat)) := by
  have hguard : ¬(n < 1 ∨ n > 100) := by omega
  rw [buildQueue_eq_reverse, buildQueue_eq_reverse]
  simp only [pop]
  rw [if_neg hguard, rpopN_eq]
  simp only [List.reverse_reverse, List.length_reverse]
  rw [filterMap_pipeline]
  rw [List.filter_eq_self.mpr fun e he => htr e ((List.take_sublist _ _).mem he)]

/-- `lrange` returns a contiguous window of the list, in particular a
sublist in the list's own order. -/
theorem lrange_sublist (s : QueueState) (start stop : Int) :
    (lrange s start stop).Sublist s := by
  simp only [lrange]
  split_ifs <;>
    first
      | exact List.nil_sublist s
      | exact (List.take_sublist _ _).trans (List.drop_sublist _ _)

/-- `lrange` on the empty list is empty. -/
theorem lrange_nil (start stop : Int) : lrange [] start stop = [] := by
  simp only [lrange]
  split_ifs <;> simp

theorem backoff_lt_succ (b i : Nat) (hb : 0 < b) :
    backoff b i < backoff b (i + 1) := by
  have hp : 0 < (2 : Nat) ^ i := pow_pos (by norm_num) i
  have h2 : (2 : Nat) ^ i < 2 ^ (i + 1) := by
    rw [pow_succ]
    omega
  exact mul_lt_mul_of_pos_left h2 hb

theorem dispatchFrom_attempts_le (e : Nat → Bool) (b : Nat) :
    ∀ budget i, (dispatchFrom e b budget i).attemptsMade ≤ budget := by
  intro budget
  induction budget with
  | zero => intro i; exact Nat.le_refl 0
  | succ n ih =>
    intro i
    rw [dispatchFrom]
    split
    · exact Nat.le_add_left 1 n
    · have h := ih (i + 1)
      dsimp only
      omega

theorem dispatchFrom_all_fail (e : Nat → Bool) (b : Nat) (hf : ∀ j, e j = false) :
    ∀ budget i, (dispatchFrom e b budget i).successes = 0 ∧
      (dispatchFrom e b budget i).final = .exhausted ∧
      (dispatchFrom e b budget i).attemptsMade = budget := by
  intro budget
  induction budget with
  | zero => intro i; exact ⟨rfl, rfl, rfl⟩
  | succ n ih =>
    intro i
    rw [dispatchFrom, if_neg (by simp [hf i])]
    dsimp only
    exact ⟨(ih (i + 1)).1, (ih (i + 1)).2.1, by rw [(ih (i + 1)).2.2]⟩

/-- The backoff intervals of a dispatch are strictly increasing, and all of
them are at least the backoff of the first attempt considered. -/
theorem dispatchFrom_intervals_chain (e : Nat → Bool) (b : Nat) (hb : 0 < b) :
    ∀ budget i, List.Chain' (· < ·) (dispatchFrom e b budget i).intervals ∧
      (∀ x ∈ (dispatchFrom e b budget i).intervals, backoff b i ≤ x) := by
  intro budget
  induction budget with
  | zero =>
    intro i
    exact ⟨List.chain'_nil, by intro x hx; simp [dispatchFrom] at hx⟩
  | succ n ih =>
    intro i
    rw [dispatchFrom]
    split
    · exact ⟨List.chain'_nil, by intro x hx; simp at hx⟩
    · dsimp only
      by_cases h0 : (dispatchFrom e b n (i + 1)).attemptsMade = 0
      · rw [if_pos h0]
        exact ⟨List.chain'_nil, by intro x hx; simp at hx⟩
      · rw [if_neg h0]
        have hmono := backoff_lt_succ b i hb
        obtain ⟨hch, hbd⟩ := ih (i + 1)
        refine ⟨?_, ?_⟩
        · rw [List.chain'_cons']
          refine ⟨fun y hy => ?_, hch⟩
          have hy' : backoff b (i + 1) ≤ y :=
            hbd y (List.mem_of_mem_head? hy)
          omega
        · intro x hx
          rcases List.mem_cons.mp hx with h | h
          · subst h; exact Nat.le_refl _
          · exact le_trans (le_of_lt hmono) (hbd x h)

/-- The dispatch of the spec's retry scenario: the endpoint refuses the
first two attempts and accepts the third. -/
theorem dispatchFrom_scenario (e : Nat → Bool) (b m : Nat)
    (h0 : e 0 = false) (h1 : e 1 = false) (h2 : e 2 = true) :
    dispatchFrom e b (m + 3) 0 =
      ⟨3, [backoff b 0, backoff b 1], 1, .acked⟩ := by
  have s2 : dispatchFrom e b (m + 1) 2 = ⟨1, [], 1, .acked⟩ := by
    rw [dispatchFrom, if_pos h2]
  have s1 : dispatchFrom e b (m + 2) 1 = ⟨2, [backoff b 1], 1, .acked⟩ := by
    show dispatchFrom e b ((m + 1) + 1) 1 = _
    rw [dispatchFrom, if_neg (by simp [h1]), s2]
    rfl
  show dispatchFrom e b ((m + 2) + 1) 0 = _
  rw [dispatchFrom, if_neg (by simp [h0]), s1]
  rfl

/-! ## Claim theorems -/

/-- C1: for every queue state holding the append history `es` and every
count `n` accepted by the interface (1 ≤ n ≤ 100), `pop(n)` returns exactly
the `min(n, L)` oldest envelopes in FIFO order (oldest first), removes
exactly those from the store (leaving `L - min(n, L)`), the returned and
remaining envelopes partition the store's contents (nothing returned stays,
nothing removed is withheld), and `pop` on an empty store returns an empty
sequence, not an error. -/
theorem C1_pop_fifo (es : List Entry) (n : Int)
    (h1 : 1 ≤ n) (h2 : n ≤ 100) (htr : ∀ e ∈ es, truthy e) :
    ∃ resp s',
      pop n (buildQueue es) = (.ok resp, s') ∧
      resp.messages = es.take n.toNat ∧
      resp.messages.length = min n.toNat es.length ∧
      s' = buildQueue (es.drop n.toNat) ∧
      s'.length = es.length - min n.toNat es.length ∧
      resp.messages ++ s'.reverse = es ∧
      pop n (buildQueue []) = (.ok { messages := [], count := 0 }, buildQueue []) := by
  refine ⟨_, _, pop_spec es n h1 h2 htr, rfl, ?_, rfl, ?_, ?_, ?_⟩
  · simp [List.length_take]
  · rw [buildQueue_eq_reverse]
    simp only [List.length_reverse, List.length_drop]
    omega
  · rw [buildQueue_eq_reverse, List.reverse_reverse, List.take_append_drop]
  · have h := pop_spec [] n h1 h2 (by intro e he; simp at he)
    simpa using h

theorem C1_pop_fifo_witness :
    ∃ resp s',
      pop 2 (buildQueue ["a", "b", "c"]) = (.ok resp, s') ∧
      resp.messages = ["a", "b"] ∧ s' = buildQueue ["c"] := by
  obtain ⟨resp, s', h, hm, -, hs, -⟩ :=
    C1_pop_fifo ["a", "b", "c"] 2 (by decide) (by decide) (by decide)
  refine ⟨resp, s', h, ?_, ?_⟩
  · rw [hm]
    decide
  · rw [hs]
    decide

/-- C2: two successive `pop`s (no other mutation in between) return
disjoint sequences of envelopes, and together with the remaining store
contents they reconstruct the full append history — no envelope is lost
and none is returned twice. -/
theorem C2_pop_disjoint_lossless (es : List Entry) (n m : Int)
    (hn1 : 1 ≤ n) (hn2 : n ≤ 100) (hm1 : 1 ≤ m) (hm2 : m ≤ 100)
    (htr : ∀ e ∈ es, truthy e) (hnd : es.Nodup) :
    ∃ r1 s1 r2 s2,
      pop n (buildQueue es) = (.ok r1, s1) ∧
      pop m s1 = (.ok r2, s2) ∧
      r1.messages.Disjoint r2.messages ∧
      r1.messages ++ r2.messages ++ s2.reverse = es := by
  have htr2 : ∀ e ∈ es.drop n.toNat, truthy e :=
    fun e he => htr e ((List.drop_sublist _ _).mem he)
  have hD : List.Disjoint (es.take n.toNat) (es.drop n.toNat) :=
    List.disjoint_take_drop hnd (Nat.le_refl n.toNat)
  refine ⟨_, _, _, _, pop_spec es n hn1 hn2 htr,
    pop_spec (es.drop n.toNat) m hm1 hm2 htr2, ?_, ?_⟩
  · exact List.disjoint_of_subset_right (List.take_sublist _ _).subset hD
  · rw [buildQueue_eq_reverse, List.reverse_reverse, List.append_assoc,
      List.take_append_drop, List.take_append_drop]

theorem C2_pop_disjoint_lossless_witness :
    ∃ r1 s1 r2 s2,
      pop 1 (buildQueue ["a", "b", "c"]) = (.ok r1, s1) ∧
      pop 1 s1 = (.ok r2, s2) ∧
      r1.messages.Disjoint r2.messages ∧
      r1.messages ++ r2.messages ++ s2.reverse = ["a", "b", "c"] :=
  C2_pop_disjoint_lossless ["a", "b", "c"] 1 1 (by decide) (by decide)
    (by decide) (by decide) (by decide) (by decide)

/-- C3: for every store state and every valid `(start, end)` window,
`peek` performs no side effect — the store is identical after the call —
its result is ordered most-recent-first (a sublist of the append history
reversed), and `peek` on an empty store returns an empty sequence, not an
error. -/
theorem C3_peek_no_side_effects (s : QueueState) (es : List Entry)
    (start stop : Int) (hstop : stop ≤ 99) :
    (peek start stop s).2 = s ∧
    (∃ resp, peek start stop (buildQueue es) = (.ok resp, buildQueue es) ∧
      resp.messages.Sublist es.reverse) ∧
    peek start stop [] = (.ok { messages := [], count := 0 }, []) := by
  have hguard : ¬ stop > 99 := by omega
  refine ⟨?_, ?_, ?_⟩
  · rw [peek]
    split <;> rfl
  · rw [buildQueue_eq_reverse, peek, if_neg hguard]
    exact ⟨_, rfl, (List.filter_sublist _).trans (lrange_sublist _ _ _)⟩
  · rw [peek, if_neg hguard, lrange_nil]
    rfl

theorem C3_peek_no_side_effects_witness :
    (peek 0 9 ["x"]).2 = ["x"] ∧
    (∃ resp, peek 0 9 (buildQueue ["a", "b"]) = (.ok resp, buildQueue ["a", "b"]) ∧
      resp.messages.Sublist (["a", "b"] : List Entry).reverse) ∧
    peek 0 9 [] = (.ok { messages := [], count := 0 }, []) :=
  C3_peek_no_side_effects ["x"] ["a", "b"] 0 9 (by decide)

/-- C4: `health()` never raises (it is a total function of the probe
outcomes whose status is always `healthy` or `degraded`): the status is
`healthy` iff both the Redis ping and the connector `GET /status` probe
succeed, and each dependency is reported `error` exactly when its probe
fails and `ok` exactly when it succeeds. -/
theorem C4_health_aggregates (redisPing : Except String Unit)
    (o : ConnectorOutcome Unit) :
    ((health redisPing o).status = "healthy" ∨
      (health redisPing o).status = "degraded") ∧
    ((health redisPing o).status = "healthy" ↔
      probeOk redisPing = true ∧ probeOk (baileys_get o) = true) ∧
    ((health redisPing o).status = "degraded" ↔
      probeOk redisPing = false ∨ probeOk (baileys_get o) = false) ∧
    ((health redisPing o).redis = "error" ↔ probeOk redisPing = false) ∧
    ((health redisPing o).redis = "ok" ↔ probeOk redisPing = true) ∧
    ((health redisPing o).baileys = "error" ↔ probeOk (baileys_get o) = false) ∧
    ((health redisPing o).baileys = "ok" ↔ probeOk (baileys_get o) = true) := by
  cases redisPing <;> cases o <;>
    simp [health, probeOk, baileys_get, httpRequest]

/-- C5 (as stated) is false: `send_text` has no try/except, so a connector
transport failure escapes the handler as the raw exception — it is not
surfaced as a service-unavailable `HTTPException(503)`. -/
theorem C5_counterexample :
    send_text "x"
        (ConnectorOutcome.unreachable "connection refused" : ConnectorOutcome Unit) =
      .error (.unhandled (.transportError "connection refused")) ∧
    isServiceUnavailable (send_text "x"
        (ConnectorOutcome.unreachable "connection refused" : ConnectorOutcome Unit)) =
      false :=
  ⟨rfl, rfl⟩

/-- C5 (amended): `status` propagates any connector failure as a
service-unavailable `HTTPException(503)`; `get_qrcode` propagates transport
failures as 503 but re-raises a connector HTTP error response under the
connector's own status code; the send operations (text, image, buttons,
list, template, reaction) propagate the connector failure as an uncaught
exception — never a deliberate 503. -/
theorem C5_connector_failure_propagation {α : Type} (body : String)
    (code : Nat) (msg : String) (render : String → String)
    (o : ConnectorOutcome α) :
    ((baileys_get o).isOk = false → isServiceUnavailable (status o) = true) ∧
    get_qrcode render (.unreachable msg) = .error (.httpException 503 msg) ∧
    get_qrcode render (.httpError code msg) =
      .error (.httpException code "QR not available - check /status") ∧
    send_text body (.unreachable msg : ConnectorOutcome Unit) =
      .error (.unhandled (.transportError msg)) ∧
    send_text body (.httpError code msg : ConnectorOutcome Unit) =
      .error (.unhandled (.httpStatusError code msg)) ∧
    send_image body (.unreachable msg : ConnectorOutcome Unit) =
      .error (.unhandled (.transportError msg)) ∧
    send_buttons body (.unreachable msg : ConnectorOutcome Unit) =
      .error (.unhandled (.transportError msg)) ∧
    send_list body (.unreachable msg : ConnectorOutcome Unit) =
      .error (.unhandled (.transportError msg)) ∧
    send_template body (.unreachable msg : ConnectorOutcome Unit) =
      .error (.unhandled (.transportError msg)) ∧
    send_reaction body (.unreachable msg : ConnectorOutcome Unit) =
      .error (.unhandled (.transportError msg)) ∧
    isServiceUnavailable
      (send_text body (.unreachable msg : ConnectorOutcome Unit)) = false := by
  refine ⟨?_, rfl, rfl, rfl, rfl, rfl, rfl, rfl, rfl, rfl, rfl⟩
  intro h
  cases o with
  | ok b => simp [baileys_get, httpRequest, Except.isOk, Except.toBool] at h
  | httpError c m => rfl
  | unreachable m => rfl

theorem C5_connector_failure_propagation_witness :
    isServiceUnavailable
      (status (ConnectorOutcome.unreachable "down" : ConnectorOutcome Unit)) = true ∧
    get_qrcode (fun q => q) (.unreachable "down") =
      .error (.httpException 503 "down") := by
  have h := C5_connector_failure_propagation "b" 404 "down" (fun q => q)
    (ConnectorOutcome.unreachable "down" : ConnectorOutcome Unit)
  exact ⟨h.1 rfl, h.2.1⟩

/-- C6: a subscriber endpoint failing its first 2 delivery attempts and
succeeding on the 3rd yields exactly one successful delivery recorded,
with strictly increasing backoff intervals between attempts; in general
attempts follow exponential backoff with a capped attempt count, and after
exhaustion the event is marked `Exhausted` for that subscriber while the
Durable Store is untouched. -/
theorem C6_webhook_retry (endpoint e2 : Nat → Bool) (base maxA n : Nat)
    (store : QueueState) (hbase : 0 < base)
    (h0 : endpoint 0 = false) (h1 : endpoint 1 = false) (h2 : endpoint 2 = true)
    (hfail : ∀ j, e2 j = false) :
    (dispatch endpoint (n + 3) base store).1 =
      { attemptsMade := 3, intervals := [backoff base 0, backoff base 1],
        successes := 1, final := .acked } ∧
    List.Chain' (· < ·) (dispatch endpoint (n + 3) base store).1.intervals ∧
    (dispatch e2 maxA base store).1.attemptsMade ≤ maxA ∧
    (dispatch e2 maxA base store).1.successes = 0 ∧
    (dispatch e2 maxA base store).1.final = .exhausted ∧
    List.Chain' (· < ·) (dispatch e2 maxA base store).1.intervals ∧
    (dispatch e2 maxA base store).2 = store := by
  refine ⟨dispatchFrom_scenario endpoint base n h0 h1 h2,
    (dispatchFrom_intervals_chain endpoint base hbase (n + 3) 0).1,
    dispatchFrom_attempts_le e2 base maxA 0,
    (dispatchFrom_all_fail e2 base hfail maxA 0).1,
    (dispatchFrom_all_fail e2 base hfail maxA 0).2.1,
    (dispatchFrom_intervals_chain e2 base hbase maxA 0).1,
    rfl⟩

theorem C6_webhook_retry_witness :
    (dispatch (fun i => i == 2) 5 7 ["m"]).1 =
      { attemptsMade := 3, intervals := [7, 14], successes := 1, final := .acked } ∧
    (dispatch (fun _ => false) 5 7 ["m"]).1.final = .exhausted := by
  have h := C6_webhook_retry (fun i => i == 2) (fun _ => false) 7 5 2 ["m"]
    (by decide) (by decide) (by decide) (by decide) (fun j => rfl)
  refine ⟨?_, h.2.2.2.2.1⟩
  rw [h.1]
  rfl

/-- C7: the documented Consumer Read API parameter bounds are enforced as
preconditions: `stream_read` accepts `count` only in `[1, 100]`, `trace`
accepts `limit` only in `[1, 500]`, `peek` accepts `end` only up to 99,
`pop` accepts `count` only in `[1, 100]`; an out-of-bound request is
rejected without touching the store (for the forwarding endpoints no
request is issued; `pop` and `peek` leave the store unchanged), and any
in-bound value is accepted. -/
theorem C7_parameter_bounds (scount limit start stop pcount : Int)
    (lastId jid : String) (s : QueueState) :
    ((stream_read scount lastId).isOk = true ↔ 1 ≤ scount ∧ scount ≤ 100) ∧
    ((trace_conversation jid limit).isOk = true ↔ 1 ≤ limit ∧ limit ≤ 500) ∧
    ((peek start stop s).1.isOk = true ↔ stop ≤ 99) ∧
    ((pop pcount s).1.isOk = true ↔ 1 ≤ pcount ∧ pcount ≤ 100) ∧
    (stop > 99 → (peek start stop s).2 = s) ∧
    ((pcount < 1 ∨ pcount > 100) → (pop pcount s).2 = s) := by
  refine ⟨?_, ?_, ?_, ?_, ?_, ?_⟩
  · by_cases h : scount < 1 ∨ scount > 100
    · rw [stream_read, if_pos h]
      simp [Except.isOk, Except.toBool]
      omega
    · rw [stream_read, if_neg h]
      simp [Except.isOk, Except.toBool]
      omega
  · by_cases h : limit < 1 ∨ limit > 500
    · rw [trace_conversation, if_pos h]
      simp [Except.isOk, Except.toBool]
      omega
    · rw [trace_conversation, if_neg h]
      simp [Except.isOk, Except.toBool]
      omega
  · by_cases h : stop > 99
    · rw [peek, if_pos h]
      simp [Except.isOk, Except.toBool]
      omega
    · rw [peek, if_neg h]
      simp [Except.isOk, Except.toBool]
      omega
  · by_cases h : pcount < 1 ∨ pcount > 100
    · rw [pop, if_pos h]
      simp [Except.isOk, Except.toBool]
      omega
    · rw [pop, if_neg h]
      simp [Except.isOk, Except.toBool]
      omega
  · intro h
    rw [peek, if_pos h]
  · intro h
    rw [pop, if_pos h]

theorem C7_parameter_bounds_witness :
    (stream_read 50 "0").isOk = true ∧
    (peek 0 100 ["x"]).2 = ["x"] ∧
    (pop 0 ["x"]).2 = ["x"] := by
  have h := C7_parameter_bounds 50 501 0 100 0 "0" "j" ["x"]
  exact ⟨h.1.mpr (by decide), h.2.2.2.2.1 (by decide), h.2.2.2.2.2 (by decide)⟩

/-- C8: `queue_status()` returns the store's current envelope count — the
value `length()` (`llen`) returns — without mutating the store; the legacy
stream-mode variant reports the stream length from the connector's stream
info, defaulting to 0 when absent. -/
theorem C8_queue_status_length (s : QueueState) (len : Nat) :
    (queue_status s).1.queue_length = llen s ∧
    (queue_status s).2 = s ∧
    queue_status_legacy (.ok { length := some len }) =
      .ok { queue_length := len } ∧
    queue_status_legacy (.ok { length := none }) = .ok { queue_length := 0 } :=
  ⟨rfl, rfl, rfl, rfl⟩

/-- C9: whenever `peek` or `pop` accepts a request, the returned `count`
field equals the number of entries in the returned `messages` list, and
empty or missing raw entries are filtered out — every returned message is
truthy, none is null. -/
theorem C9_count_consistency (s : QueueState) (start stop pcount : Int) :
    (∀ resp s2, peek start stop s = (.ok resp, s2) →
      resp.count = resp.messages.length ∧ ∀ m ∈ resp.messages, truthy m) ∧
    (∀ resp s2, pop pcount s = (.ok resp, s2) →
      resp.count = resp.messages.length ∧ ∀ m ∈ resp.messages, truthy m) := by
  constructor
  · intro resp s2 h
    by_cases hg : stop > 99
    · rw [peek, if_pos hg] at h
      simp at h
    · rw [peek, if_neg hg] at h
      simp only [Prod.mk.injEq, Except.ok.injEq] at h
      obtain ⟨h1, -⟩ := h
      subst h1
      exact ⟨rfl, fun m hm => (List.mem_filter.mp hm).2⟩
  · intro resp s2 h
    by_cases hg : pcount < 1 ∨ pcount > 100
    · rw [pop, if_pos hg] at h
      simp at h
    · rw [pop, if_neg hg] at h
      simp only [Prod.mk.injEq, Except.ok.injEq] at h
      obtain ⟨h1, -⟩ := h
      subst h1
      exact ⟨rfl, fun m hm => (List.mem_filter.mp hm).2⟩

theorem C9_count_consistency_witness :
    ({ messages := ["a"], count := 1 } : MsgsResponse).count =
      ({ messages := ["a"], count := 1 } : MsgsResponse).messages.length ∧
    ∀ m ∈ ({ messages := ["a"], count := 1 } : MsgsResponse).messages, truthy m :=
  (C9_count_consistency ["a"] 0 9 10).1 { messages := ["a"], count := 1 } ["a"]
    rfl

/-- C10: on a successful connector response, `get_qrcode` succeeds — a
missing QR is not an error: `qr_image_base64` is a rendered image exactly
when the payload's `qr` is truthy (present and non-empty) and null
otherwise, and the `qr` and `status` fields are passed through unchanged. -/
theorem C10_qrcode_passthrough (render : String → String) (p : QrPayload) :
    ∃ resp, get_qrcode render (.ok p) = .ok resp ∧
      resp.qr = p.qr ∧
      resp.status = p.status ∧
      resp.qr_image_base64.isSome = optTruthy p.qr ∧
      (∀ q : String, p.qr = some q → q ≠ "" →
        resp.qr_image_base64 = some (render q)) := by
  refine ⟨_, rfl, rfl, rfl, ?_, ?_⟩
  · rcases hq : p.qr with _ | q
    · simp [get_qrcode, baileys_get, httpRequest, hq, optTruthy]
    · by_cases hq' : q = "" <;>
        simp [get_qrcode, baileys_get, httpRequest, hq, hq', optTruthy]
  · intro q hq hne
    simp [get_qrcode, baileys_get, httpRequest, hq, hne]

theorem C10_qrcode_passthrough_witness :
    ∃ resp, get_qrcode (fun q => q ++ ".png") (.ok ⟨some "QR", some "waiting"⟩) =
      .ok resp ∧ resp.qr_image_base64 = some "QR.png" := by
  obtain ⟨resp, h, -, -, -, himg⟩ :=
    C10_qrcode_passthrough (fun q => q ++ ".png") ⟨some "QR", some "waiting"⟩
  refine ⟨resp, h, ?_⟩
  rw [himg "QR" rfl (by decide)]
  rfl

end WhatsAppGateway
